import Mathlib

/-!
Shallow embedding of the PREVxREAL dashboard sources.

`credenciais.py` is embedded as total functions over an environment map
(`Env := String → Option String`, the view of `os.getenv`): `get_app_keys`
and `get_email_config` mirror the two resolvers, including Python
truthiness of the fetched strings and the pydantic `min_length=1`
validation.  Pydantic's `EmailStr` format check is an external library
predicate, so `get_email_config` is parameterised over it.

`teste.py`'s `listar_orcamentos` is embedded as a fuel-structured
recursion `loopAux` over the attempt counter, mirroring
`for tentativa in range(1, tentativas + 1)`.  The network and UI side
effects are made explicit: the `trace` field records each `time.sleep`
and each `requests.post` in order, `warnings` counts the `st.warning`
banners of the busy branch, and `errors` lists the `st.error` banners.
The HTTP response body is abstracted to the fields the code reads:
`status_code`, the optional `faultcode` string, and the
`ListaOrcamentos` list.  Monetary values are modelled as rationals.
-/

namespace PrevReal

/-- Python `str.upper` on the character sequence (ASCII case mapping,
which covers every identifier the program builds). -/
def pyUpper (s : String) : String :=
  ⟨s.data.map Char.toUpper⟩

/-- Python truthiness of an `os.getenv` result: `None` and the empty
string are falsy, every other string is truthy. -/
def truthy : Option String → Bool
  | none => false
  | some s => !(s == "")

/-- Helper for substring search: does the second list start with the first? -/
def charsStartWith : List Char → List Char → Bool
  | [], _ => true
  | _ :: _, [] => false
  | a :: as, b :: bs => a == b && charsStartWith as bs

/-- Helper for substring search: does the first list occur inside the second? -/
def charsOccurIn (needle : List Char) : List Char → Bool
  | [] => charsStartWith needle []
  | c :: cs => charsStartWith needle (c :: cs) || charsOccurIn needle cs

/-- Python `pat in hay` on strings: substring containment. -/
def containsSubstr (hay pat : String) : Bool :=
  charsOccurIn pat.data hay.data

/-- Python `str.zfill`: left-pad with zeros to the requested width,
keeping a leading sign character in front of the padding. -/
def pyZfill (s : String) (width : Nat) : String :=
  if width ≤ s.length then s
  else
    let signed := s.startsWith "-" || s.startsWith "+"
    let sign := if signed then s.take 1 else ""
    let rest := if signed then s.drop 1 else s
    sign ++ ⟨List.replicate (width - s.length) '0'⟩ ++ rest

/-- The environment-variable map seen through `os.getenv`. -/
def Env : Type := String → Option String

/-- `AppKeysConfig` (credenciais.py): API key pair. -/
structure AppKeysConfig where
  app_key : String
  app_secret : String
deriving DecidableEq, Repr

/-- Pydantic construction of `AppKeysConfig`: both fields are
`Field(..., min_length=1)`; a `ValidationError` is modelled as `none`. -/
def AppKeysConfig.validate (app_key app_secret : String) : Option AppKeysConfig :=
  if 1 ≤ app_key.length && 1 ≤ app_secret.length then
    some ⟨app_key, app_secret⟩
  else
    none

/-- `EmailConfig` (credenciais.py): email plus password. -/
structure EmailConfig where
  email : String
  senha : String
deriving DecidableEq, Repr

/-- Pydantic construction of `EmailConfig`: `email` must satisfy the
external `EmailStr` format predicate, `senha` is `min_length=1`. -/
def EmailConfig.validate (validEmail : String → Bool) (email senha : String) :
    Option EmailConfig :=
  if validEmail email && 1 ≤ senha.length then
    some ⟨email, senha⟩
  else
    none

/-- Name of the `{LOC}_{SVC}_APP_KEY` environment variable. -/
def appKeyVar (localidade servico : String) : String :=
  pyUpper localidade ++ "_" ++ pyUpper servico ++ "_APP_KEY"

/-- Name of the `{LOC}_{SVC}_APP_SECRET` environment variable. -/
def appSecretVar (localidade servico : String) : String :=
  pyUpper localidade ++ "_" ++ pyUpper servico ++ "_APP_SECRET"

/-- Name of the `{LOC}_{SVC}_EMAIL` environment variable. -/
def emailVar (localidade servico : String) : String :=
  pyUpper localidade ++ "_" ++ pyUpper servico ++ "_EMAIL"

/-- Name of the `{LOC}_{SVC}_SENHA` environment variable. -/
def senhaVar (localidade servico : String) : String :=
  pyUpper localidade ++ "_" ++ pyUpper servico ++ "_SENHA"

/-- `Config.get_app_keys` (credenciais.py lines 76-104): uppercase the
inputs, read the two variables, return `None` when either is missing or
empty, otherwise construct the validated record, catching
`ValidationError` as `None`. -/
def get_app_keys (env : Env) (localidade servico : String) : Option AppKeysConfig :=
  let app_key := env (appKeyVar localidade servico)
  let app_secret := env (appSecretVar localidade servico)
  if truthy app_key && truthy app_secret then
    AppKeysConfig.validate (app_key.getD "") (app_secret.getD "")
  else
    none

/-- `Config.get_email_config` (credenciais.py lines 46-74), parameterised
by the external `EmailStr` format predicate. -/
def get_email_config (validEmail : String → Bool) (env : Env)
    (localidade servico : String) : Option EmailConfig :=
  let email := env (emailVar localidade servico)
  let senha := env (senhaVar localidade servico)
  if truthy email && truthy senha then
    EmailConfig.validate validEmail (email.getD "") (senha.getD "")
  else
    none

/-- One element of the `ListaOrcamentos` response list, restricted to the
fields the program reads downstream. -/
structure Entry where
  cDesCateg : String
  nValorPrevisto : ℚ
  nValorRealizado : ℚ
deriving DecidableEq, Repr

/-- The parsed JSON body of one HTTP response, restricted to the fields
`listar_orcamentos` reads: `status_code`, the optional `faultcode`
string, and the `ListaOrcamentos` list (`dados.get` defaults it to `[]`,
so absence and emptiness coincide). -/
structure HttpResponse where
  status : Nat
  faultcode : Option String
  listaOrcamentos : List Entry
deriving DecidableEq, Repr

/-- teste.py line 40: `"faultcode" in dados and "8020" in dados["faultcode"]`. -/
def isBusyBody (dados : HttpResponse) : Bool :=
  match dados.faultcode with
  | some fc => containsSubstr fc "8020"
  | none => false

/-- The user-selected filters passed to `listar_orcamentos`. -/
structure Query where
  localidade : String
  servico : String
  ano : Int
  mes : Int

/-- The JSON payload of teste.py lines 27-32. -/
structure Payload where
  call : String
  nAno : Int
  nMes : Int
  app_key : String
  app_secret : String
deriving DecidableEq, Repr

/-- Build the request payload from the resolved keys and the filters. -/
def mkPayload (keys : AppKeysConfig) (ano mes : Int) : Payload :=
  { call := "ListarOrcamentos", nAno := ano, nMes := mes,
    app_key := keys.app_key, app_secret := keys.app_secret }

/-- One row of the returned DataFrame: the normalized entry plus the four
tag columns added at teste.py lines 48-51 (`ano` stays an int, `mes` is
`str(mes).zfill(2)`). -/
structure Row where
  entry : Entry
  ano : Int
  mes : String
  localidade : String
  servico : String
deriving DecidableEq, Repr

/-- Attach the four query tags to a normalized entry. -/
def tagRow (q : Query) (e : Entry) : Row :=
  { entry := e, ano := q.ano, mes := pyZfill (toString q.mes) 2,
    localidade := q.localidade, servico := q.servico }

/-- Observable side effects of the fetch loop, in program order. -/
inductive Ev where
  | sleep (seconds : Nat)
  | post (p : Payload)
deriving DecidableEq, Repr

/-- The `st.error` banners `listar_orcamentos` can emit. -/
inductive Err where
  | credsNotFound
  | httpErr (status : Nat)
  | attemptsExceeded
deriving DecidableEq, Repr

/-- Result of a `listar_orcamentos` run: the DataFrame, the sleep/post
trace, the number of busy `st.warning` banners, and the `st.error`
banners. -/
structure FetchOut where
  df : List Row
  trace : List Ev
  warnings : Nat
  errors : List Err
deriving DecidableEq, Repr

/-- The retry loop of teste.py lines 34-63, structurally recursive on the
remaining attempts (`rem = tentativas - (t - 1)`); `t` is the current
value of `tentativa`.  Exhausting the counter reaches the
limite-excedido error of lines 61-63. -/
def loopAux (resp : Nat → HttpResponse) (q : Query) (p : Payload) :
    Nat → Nat → FetchOut
  | _, 0 => ⟨[], [], 0, [Err.attemptsExceeded]⟩
  | t, rem + 1 =>
    let dados := resp t
    if dados.status = 200 then
      if isBusyBody dados then
        let rest := loopAux resp q p (t + 1) rem
        ⟨rest.df, Ev.sleep (4 * t) :: Ev.post p :: rest.trace,
          rest.warnings + 1, rest.errors⟩
      else
        let lista := dados.listaOrcamentos
        if lista.isEmpty then
          ⟨[], [Ev.sleep (4 * t), Ev.post p], 0, []⟩
        else
          ⟨lista.map (tagRow q), [Ev.sleep (4 * t), Ev.post p], 0, []⟩
    else
      ⟨[], [Ev.sleep (4 * t), Ev.post p], 0, [Err.httpErr dados.status]⟩

/-- `listar_orcamentos` (teste.py lines 20-63).  `resp n` is the response
the network would give to the POST of attempt `n`; the Python default
`tentativas=3` is passed explicitly by the one call site. -/
def listar_orcamentos (env : Env) (resp : Nat → HttpResponse) (q : Query)
    (tentativas : Nat) : FetchOut :=
  match get_app_keys env q.localidade q.servico with
  | none => ⟨[], [], 0, [Err.credsNotFound]⟩
  | some keys => loopAux resp q (mkPayload keys q.ano q.mes) 1 tentativas

/-- Recognise a POST event. -/
def isPostEv : Ev → Bool
  | Ev.post _ => true
  | Ev.sleep _ => false

/-- Number of POST requests issued in a run. -/
def postCount (o : FetchOut) : Nat :=
  o.trace.countP isPostEv

/-- Extract a sleep duration from an event. -/
def evSleep : Ev → Option Nat
  | Ev.sleep d => some d
  | Ev.post _ => none

/-- The sleep durations of a run, in order. -/
def sleepsOf (o : FetchOut) : List Nat :=
  o.trace.filterMap evSleep

/-- Pandas `.round(2)` on a value (numpy round-half-to-even at the second
decimal), on the rational model of the numeric columns. -/
def round2 (q : ℚ) : ℚ :=
  let z : ℤ := ⌊q * 100⌋
  let frac : ℚ := q * 100 - z
  let r : ℤ :=
    if frac < 1/2 then z
    else if 1/2 < frac then z + 1
    else if z % 2 = 0 then z else z + 1
  (r : ℚ) / 100

/-- One row after the UI-block conversions of teste.py lines 86-94:
`ano` cast to string, `mes` re-zfilled, the two numeric columns rounded
to 2 decimals, and the columns renamed. -/
structure ProcRow where
  Categoria : String
  Previsto : ℚ
  Realizado : ℚ
  ano : String
  mes : String
  localidade : String
  servico : String
deriving DecidableEq, Repr

/-- The conversions of teste.py lines 86-94 applied to one row. -/
def processRow (r : Row) : ProcRow :=
  { Categoria := r.entry.cDesCateg,
    Previsto := round2 r.entry.nValorPrevisto,
    Realizado := round2 r.entry.nValorRealizado,
    ano := toString r.ano,
    mes := pyZfill r.mes 2,
    localidade := r.localidade,
    servico := r.servico }

/-- The conversions of teste.py lines 86-94 applied to the DataFrame. -/
def processDF (rows : List Row) : List ProcRow :=
  rows.map processRow

/-- teste.py line 99: keep rows where Previsto or Realizado is positive. -/
def filtradoPositivos (rows : List ProcRow) : List ProcRow :=
  rows.filter fun r => decide (0 < r.Previsto) || decide (0 < r.Realizado)

/-- A rational is an exact multiple of a hundredth. -/
def isCent (q : ℚ) : Bool :=
  (q * 100).den == 1

/-- A response that triggers the retry branch: status 200 with a
`faultcode` containing `"8020"`. -/
def busyResp (r : HttpResponse) : Prop :=
  r.status = 200 ∧ isBusyBody r = true

instance (r : HttpResponse) : Decidable (busyResp r) := by
  unfold busyResp
  infer_instance

/-! Concrete fixtures used to evaluate the development on closed inputs. -/

/-- An environment holding exactly the key pair for locality `a`, service `b`. -/
def envAB : Env := fun v =>
  if v = "A_B_APP_KEY" then some "chave"
  else if v = "A_B_APP_SECRET" then some "segredo"
  else none

/-- The empty environment. -/
def envEmpty : Env := fun _ => none

/-- The key record `envAB` resolves to. -/
def keysAB : AppKeysConfig := ⟨"chave", "segredo"⟩

/-- A concrete query. -/
def qAB : Query := { localidade := "a", servico := "b", ano := 2024, mes := 5 }

/-- A concrete budget entry. -/
def entry0 : Entry :=
  { cDesCateg := "Vendas", nValorPrevisto := 10, nValorRealizado := 20 }

/-- An entry whose planned value is negative. -/
def entryNeg : Entry :=
  { cDesCateg := "Estorno", nValorPrevisto := -1, nValorRealizado := 0 }

/-- A status-200 response carrying the vendor busy fault code. -/
def respBusy : HttpResponse :=
  { status := 200, faultcode := some "SOAP-ENV:Client-8020", listaOrcamentos := [] }

/-- A status-200 response with a one-entry result list. -/
def respOkOne : HttpResponse :=
  { status := 200, faultcode := none, listaOrcamentos := [entry0] }

/-- A status-200 response with an empty result list. -/
def respOkEmpty : HttpResponse :=
  { status := 200, faultcode := none, listaOrcamentos := [] }

/-- A 404 response. -/
def respNotFound : HttpResponse :=
  { status := 404, faultcode := none, listaOrcamentos := [] }

/-- Network for claim C1: busy on attempts 1 and 2, success on attempt 3. -/
def netBusyBusyOk : Nat → HttpResponse := fun n =>
  if n ≤ 2 then respBusy else respOkOne

/-- Network that is busy on every attempt. -/
def netAllBusy : Nat → HttpResponse := fun _ => respBusy

/-- Network that answers 404 to every attempt. -/
def netNotFound : Nat → HttpResponse := fun _ => respNotFound

/-- Network: busy on attempt 1, empty success afterwards. -/
def netBusyThenEmpty : Nat → HttpResponse := fun n =>
  if n ≤ 1 then respBusy else respOkEmpty

/-- Network that answers a one-entry success to every attempt. -/
def netOk : Nat → HttpResponse := fun _ => respOkOne

/-- A tagged row with a negative planned value, as the fetch would build it. -/
def rowNeg : Row := tagRow qAB entryNeg

/-- The trace-and-counters effect of `j` consecutive busy attempts starting
at attempt `t`, prepended to the rest of a run. -/
def busyWrap (p : Payload) (t j : Nat) (o : FetchOut) : FetchOut :=
  ⟨o.df,
    ((List.range' t j).flatMap fun n => [Ev.sleep (4 * n), Ev.post p]) ++ o.trace,
    o.warnings + j, o.errors⟩

/-! Step lemmas for the retry loop, one per branch of teste.py lines 34-63. -/

theorem loopAux_zero (resp : Nat → HttpResponse) (q : Query) (p : Payload) (t : Nat) :
    loopAux resp q p t 0 = ⟨[], [], 0, [Err.attemptsExceeded]⟩ := rfl

theorem loopAux_busy (resp : Nat → HttpResponse) (q : Query) (p : Payload)
    (t rem : Nat) (h : busyResp (resp t)) :
    loopAux resp q p t (rem + 1) =
      ⟨(loopAux resp q p (t + 1) rem).df,
        Ev.sleep (4 * t) :: Ev.post p :: (loopAux resp q p (t + 1) rem).trace,
        (loopAux resp q p (t + 1) rem).warnings + 1,
        (loopAux resp q p (t + 1) rem).errors⟩ := by
  conv_lhs => rw [loopAux]
  simp [h.1, h.2]

theorem loopAux_http (resp : Nat → HttpResponse) (q : Query) (p : Payload)
    (t rem : Nat) (h : (resp t).status ≠ 200) :
    loopAux resp q p t (rem + 1) =
      ⟨[], [Ev.sleep (4 * t), Ev.post p], 0, [Err.httpErr (resp t).status]⟩ := by
  conv_lhs => rw [loopAux]
  simp [h]

theorem loopAux_ok_empty (resp : Nat → HttpResponse) (q : Query) (p : Payload)
    (t rem : Nat) (h200 : (resp t).status = 200)
    (hb : isBusyBody (resp t) = false)
    (he : (resp t).listaOrcamentos.isEmpty = true) :
    loopAux resp q p t (rem + 1) =
      ⟨[], [Ev.sleep (4 * t), Ev.post p], 0, []⟩ := by
  conv_lhs => rw [loopAux]
  simp [h200, hb, List.isEmpty_iff.mp he]

theorem loopAux_ok_rows (resp : Nat → HttpResponse) (q : Query) (p : Payload)
    (t rem : Nat) (h200 : (resp t).status = 200)
    (hb : isBusyBody (resp t) = false) :
    loopAux resp q p t (rem + 1) =
      ⟨(resp t).listaOrcamentos.map (tagRow q),
        [Ev.sleep (4 * t), Ev.post p], 0, []⟩ := by
  conv_lhs => rw [loopAux]
  by_cases he : (resp t).listaOrcamentos = [] <;> simp [h200, hb, he]

theorem loopAux_skip_busy (resp : Nat → HttpResponse) (q : Query) (p : Payload) :
    ∀ j t rem, (∀ i, t ≤ i → i < t + j → busyResp (resp i)) →
      loopAux resp q p t (j + rem) = busyWrap p t j (loopAux resp q p (t + j) rem) := by
  intro j
  induction j with
  | zero =>
    intro t rem _
    simp [busyWrap]
  | succ j ih =>
    intro t rem hbusy
    have hstep : loopAux resp q p t (j + rem + 1) =
        ⟨(loopAux resp q p (t + 1) (j + rem)).df,
          Ev.sleep (4 * t) :: Ev.post p :: (loopAux resp q p (t + 1) (j + rem)).trace,
          (loopAux resp q p (t + 1) (j + rem)).warnings + 1,
          (loopAux resp q p (t + 1) (j + rem)).errors⟩ :=
      loopAux_busy resp q p t (j + rem) (hbusy t (Nat.le_refl t) (by omega))
    have hrec := ih (t + 1) rem (fun i h1 h2 => hbusy i (by omega) (by omega))
    have harith : j + 1 + rem = j + rem + 1 := by omega
    rw [harith, hstep, hrec]
    simp only [busyWrap, List.range'_succ]
    have ht : t + 1 + j = t + (j + 1) := by omega
    simp [ht]
    omega

theorem countP_post_flat (p : Payload) :
    ∀ j t, (((List.range' t j).flatMap fun n => [Ev.sleep (4 * n), Ev.post p]).countP
      isPostEv) = j := by
  intro j
  induction j with
  | zero => intro t; rfl
  | succ j ih =>
    intro t
    rw [List.range'_succ]
    simp [List.countP_cons, isPostEv, ih (t + 1)]

theorem filterMap_sleep_flat (p : Payload) :
    ∀ j t, ((List.range' t j).flatMap fun n => [Ev.sleep (4 * n), Ev.post p]).filterMap
      evSleep = (List.range' t j).map fun n => 4 * n := by
  intro j
  induction j with
  | zero => intro t; rfl
  | succ j ih =>
    intro t
    rw [List.range'_succ]
    simp [List.filterMap_cons, evSleep, ih (t + 1)]

/-- Every run of the loop produces, for each issued POST `n` (numbered from
the starting attempt), exactly the events sleep `4 * n` then the POST, in
order. -/
theorem loopAux_trace_shape (resp : Nat → HttpResponse) (q : Query) (p : Payload) :
    ∀ rem t, (loopAux resp q p t rem).trace =
      (List.range' t (postCount (loopAux resp q p t rem))).flatMap
        fun n => [Ev.sleep (4 * n), Ev.post p] := by
  intro rem
  induction rem with
  | zero => intro t; rfl
  | succ rem ih =>
    intro t
    by_cases h200 : (resp t).status = 200
    · by_cases hb : isBusyBody (resp t) = true
      · have hstep := loopAux_busy resp q p t rem ⟨h200, hb⟩
        have hcount : postCount (loopAux resp q p t (rem + 1)) =
            postCount (loopAux resp q p (t + 1) rem) + 1 := by
          rw [hstep]
          simp [postCount, List.countP_cons, isPostEv]
        calc (loopAux resp q p t (rem + 1)).trace
            = Ev.sleep (4 * t) :: Ev.post p :: (loopAux resp q p (t + 1) rem).trace := by
              rw [hstep]
          _ = Ev.sleep (4 * t) :: Ev.post p ::
                (List.range' (t + 1) (postCount (loopAux resp q p (t + 1) rem))).flatMap
                  (fun n => [Ev.sleep (4 * n), Ev.post p]) := by
              rw [ih (t + 1)]
          _ = (List.range' t (postCount (loopAux resp q p t (rem + 1)))).flatMap
                (fun n => [Ev.sleep (4 * n), Ev.post p]) := by
              rw [hcount, List.range'_succ]
              simp
      · rw [loopAux_ok_rows resp q p t rem h200 (by simpa using hb)]
        simp [postCount, List.countP_cons, isPostEv, List.range'_succ]
    · rw [loopAux_http resp q p t rem h200]
      simp [postCount, List.countP_cons, isPostEv, List.range'_succ]

/-- Whenever at least one attempt remains, the first event of the loop is
the sleep of the current attempt. -/
theorem loopAux_head_sleep (resp : Nat → HttpResponse) (q : Query) (p : Payload)
    (t rem : Nat) :
    (loopAux resp q p t (rem + 1)).trace.head? = some (Ev.sleep (4 * t)) := by
  by_cases h200 : (resp t).status = 200
  · by_cases hb : isBusyBody (resp t) = true
    · rw [loopAux_busy resp q p t rem ⟨h200, hb⟩]
      rfl
    · rw [loopAux_ok_rows resp q p t rem h200 (by simpa using hb)]
      rfl
  · rw [loopAux_http resp q p t rem h200]
    rfl

/-- Every row the loop ever returns carries the four query tags. -/
theorem loopAux_df_tags (resp : Nat → HttpResponse) (q : Query) (p : Payload) :
    ∀ rem t r, r ∈ (loopAux resp q p t rem).df →
      r.ano = q.ano ∧ r.mes = pyZfill (toString q.mes) 2 ∧
      r.localidade = q.localidade ∧ r.servico = q.servico := by
  intro rem
  induction rem with
  | zero =>
    intro t r hr
    simp [loopAux] at hr
  | succ rem ih =>
    intro t r hr
    by_cases h200 : (resp t).status = 200
    · by_cases hb : isBusyBody (resp t) = true
      · rw [loopAux_busy resp q p t rem ⟨h200, hb⟩] at hr
        exact ih (t + 1) r hr
      · rw [loopAux_ok_rows resp q p t rem h200 (by simpa using hb)] at hr
        simp only [List.mem_map] at hr
        obtain ⟨e, _, rfl⟩ := hr
        exact ⟨rfl, rfl, rfl, rfl⟩
    · rw [loopAux_http resp q p t rem h200] at hr
      simp at hr

/-- Reducing `listar_orcamentos` to the loop once credentials resolve. -/
theorem listar_eq_loop (env : Env) (resp : Nat → HttpResponse) (q : Query)
    (tentativas : Nat) (keys : AppKeysConfig)
    (hk : get_app_keys env q.localidade q.servico = some keys) :
    listar_orcamentos env resp q tentativas =
      loopAux resp q (mkPayload keys q.ano q.mes) 1 tentativas := by
  unfold listar_orcamentos
  rw [hk]

/-- A nonempty string has length at least one. -/
theorem one_le_length_of_ne_empty (s : String) (h : s ≠ "") : 1 ≤ s.length := by
  cases s with
  | mk data =>
    cases data with
    | nil => exact absurd rfl h
    | cons a as =>
      show 1 ≤ (a :: as).length
      simp

/-- Python truthiness of a `getenv` result means: present and nonempty. -/
theorem truthy_iff (o : Option String) :
    truthy o = true ↔ ∃ s, o = some s ∧ s ≠ "" := by
  cases o with
  | none => simp [truthy]
  | some s => simp [truthy]

/-- The resolver on a well-formed environment entry pair. -/
theorem get_app_keys_eq_some (env : Env) (localidade servico k s : String)
    (hk : env (appKeyVar localidade servico) = some k)
    (hs : env (appSecretVar localidade servico) = some s)
    (hk0 : k ≠ "") (hs0 : s ≠ "") :
    get_app_keys env localidade servico = some ⟨k, s⟩ := by
  unfold get_app_keys AppKeysConfig.validate
  rw [hk, hs]
  simp [truthy, hk0, hs0,
    one_le_length_of_ne_empty k hk0, one_le_length_of_ne_empty s hs0]

/-- Rounding to two decimals always lands on an exact multiple of 1/100. -/
theorem isCent_round2 (q : ℚ) : isCent (round2 q) = true := by
  have key : ∀ z : ℤ, ((z : ℚ) / 100 * 100).den = 1 := by
    intro z
    rw [div_mul_cancel₀]
    · exact Rat.den_intCast z
    · norm_num
  unfold isCent round2
  simp only [beq_iff_eq]
  exact key _

/-- Rounding preserves the value of an exact negative integer. -/
theorem round2_neg_one : round2 (-1 : ℚ) = -1 := by
  have h1 : (-1 : ℚ) * 100 = ((-100 : ℤ) : ℚ) := by norm_num
  unfold round2
  rw [h1, Int.floor_intCast]
  norm_num

/-- C1: with max attempts 3, a status-200 busy-fault body on attempts 1
and 2, and a status-200 one-entry result list on attempt 3,
`listar_orcamentos` returns a one-row table and issues exactly 3 POSTs. -/
theorem claim_C1 (env : Env) (resp : Nat → HttpResponse) (q : Query)
    (keys : AppKeysConfig)
    (hk : get_app_keys env q.localidade q.servico = some keys)
    (h1 : busyResp (resp 1)) (h2 : busyResp (resp 2))
    (h3 : (resp 3).status = 200) (hb3 : isBusyBody (resp 3) = false)
    (hl : (resp 3).listaOrcamentos.length = 1) :
    (listar_orcamentos env resp q 3).df.length = 1 ∧
    postCount (listar_orcamentos env resp q 3) = 3 := by
  rw [listar_eq_loop env resp q 3 keys hk]
  have hloop3 : loopAux resp q (mkPayload keys q.ano q.mes) 3 1 =
      ⟨(resp 3).listaOrcamentos.map (tagRow q),
        [Ev.sleep (4 * 3), Ev.post (mkPayload keys q.ano q.mes)], 0, []⟩ :=
    loopAux_ok_rows resp q (mkPayload keys q.ano q.mes) 3 0 h3 hb3
  have hloop2 : loopAux resp q (mkPayload keys q.ano q.mes) 2 2 =
      ⟨(loopAux resp q (mkPayload keys q.ano q.mes) 3 1).df,
        Ev.sleep (4 * 2) :: Ev.post (mkPayload keys q.ano q.mes) ::
          (loopAux resp q (mkPayload keys q.ano q.mes) 3 1).trace,
        (loopAux resp q (mkPayload keys q.ano q.mes) 3 1).warnings + 1,
        (loopAux resp q (mkPayload keys q.ano q.mes) 3 1).errors⟩ :=
    loopAux_busy resp q (mkPayload keys q.ano q.mes) 2 1 h2
  have hloop1 : loopAux resp q (mkPayload keys q.ano q.mes) 1 3 =
      ⟨(loopAux resp q (mkPayload keys q.ano q.mes) 2 2).df,
        Ev.sleep (4 * 1) :: Ev.post (mkPayload keys q.ano q.mes) ::
          (loopAux resp q (mkPayload keys q.ano q.mes) 2 2).trace,
        (loopAux resp q (mkPayload keys q.ano q.mes) 2 2).warnings + 1,
        (loopAux resp q (mkPayload keys q.ano q.mes) 2 2).errors⟩ :=
    loopAux_busy resp q (mkPayload keys q.ano q.mes) 1 2 h1
  rw [hloop1, hloop2, hloop3]
  constructor
  · simp [hl]
  · simp [postCount, List.countP_cons, isPostEv]

/-- C1 witness: the concrete busy-busy-success network. -/
theorem claim_C1_witness :
    (listar_orcamentos envAB netBusyBusyOk qAB 3).df.length = 1 ∧
    postCount (listar_orcamentos envAB netBusyBusyOk qAB 3) = 3 :=
  claim_C1 envAB netBusyBusyOk qAB keysAB (by decide) (by decide) (by decide)
    (by decide) (by decide) (by decide)

/-- C2: when every attempt up to the maximum receives the busy fault,
`listar_orcamentos` returns an empty table and emits the
attempts-exceeded error. -/
theorem claim_C2 (env : Env) (resp : Nat → HttpResponse) (q : Query)
    (tentativas : Nat) (keys : AppKeysConfig)
    (hk : get_app_keys env q.localidade q.servico = some keys)
    (hbusy : ∀ i ∈ List.range' 1 tentativas, busyResp (resp i)) :
    (listar_orcamentos env resp q tentativas).df = [] ∧
    Err.attemptsExceeded ∈ (listar_orcamentos env resp q tentativas).errors := by
  rw [listar_eq_loop env resp q tentativas keys hk]
  have hb : ∀ i, 1 ≤ i → i < 1 + tentativas → busyResp (resp i) := by
    intro i hi1 hi2
    exact hbusy i (List.mem_range'_1.mpr ⟨hi1, hi2⟩)
  have hrun := loopAux_skip_busy resp q (mkPayload keys q.ano q.mes) tentativas 1 0 hb
  rw [Nat.add_zero] at hrun
  rw [hrun]
  simp [busyWrap, loopAux_zero]

/-- C2 witness: three busy responses with the default three attempts. -/
theorem claim_C2_witness :
    (listar_orcamentos envAB netAllBusy qAB 3).df = [] ∧
    Err.attemptsExceeded ∈ (listar_orcamentos envAB netAllBusy qAB 3).errors :=
  claim_C2 envAB netAllBusy qAB 3 keysAB (by decide) (by decide)

/-- C3: a non-200 status on attempt `k` (after busy faults on the earlier
attempts) ends the fetch at once: empty table, exactly `k` POSTs, and the
HTTP error banner. -/
theorem claim_C3 (env : Env) (resp : Nat → HttpResponse) (q : Query)
    (tentativas k : Nat) (keys : AppKeysConfig)
    (hk : get_app_keys env q.localidade q.servico = some keys)
    (hk1 : 1 ≤ k) (hk2 : k ≤ tentativas)
    (hbusy : ∀ i ∈ List.range' 1 (k - 1), busyResp (resp i))
    (hst : (resp k).status ≠ 200) :
    (listar_orcamentos env resp q tentativas).df = [] ∧
    postCount (listar_orcamentos env resp q tentativas) = k ∧
    Err.httpErr (resp k).status ∈ (listar_orcamentos env resp q tentativas).errors := by
  rw [listar_eq_loop env resp q tentativas keys hk]
  have hb : ∀ i, 1 ≤ i → i < 1 + (k - 1) → busyResp (resp i) := by
    intro i hi1 hi2
    exact hbusy i (List.mem_range'_1.mpr ⟨hi1, hi2⟩)
  have hrun := loopAux_skip_busy resp q (mkPayload keys q.ano q.mes)
    (k - 1) 1 ((tentativas - k) + 1) hb
  have hsum : (k - 1) + ((tentativas - k) + 1) = tentativas := by omega
  have hone : 1 + (k - 1) = k := by omega
  rw [hsum, hone] at hrun
  have hterm := loopAux_http resp q (mkPayload keys q.ano q.mes)
    k (tentativas - k) hst
  rw [hterm] at hrun
  rw [hrun]
  refine ⟨by simp [busyWrap], ?_, by simp [busyWrap]⟩
  simp [busyWrap, postCount, List.countP_append, List.countP_cons, isPostEv]
  have := countP_post_flat (mkPayload keys q.ano q.mes) (k - 1) 1
  simp [postCount] at this ⊢
  omega

/-- C3 witness: a 404 on attempt 1 with three attempts allowed. -/
theorem claim_C3_witness :
    (listar_orcamentos envAB netNotFound qAB 3).df = [] ∧
    postCount (listar_orcamentos envAB netNotFound qAB 3) = 1 ∧
    Err.httpErr (netNotFound 1).status ∈
      (listar_orcamentos envAB netNotFound qAB 3).errors :=
  claim_C3 envAB netNotFound qAB 3 1 keysAB (by decide) (by decide) (by decide)
    (by decide) (by decide)

/-- C4: a status-200 response without the busy fault and with an empty
result list (after busy faults on the earlier attempts) ends the fetch:
empty table, no error banner, exactly `k` POSTs. -/
theorem claim_C4 (env : Env) (resp : Nat → HttpResponse) (q : Query)
    (tentativas k : Nat) (keys : AppKeysConfig)
    (hk : get_app_keys env q.localidade q.servico = some keys)
    (hk1 : 1 ≤ k) (hk2 : k ≤ tentativas)
    (hbusy : ∀ i ∈ List.range' 1 (k - 1), busyResp (resp i))
    (h200 : (resp k).status = 200) (hb : isBusyBody (resp k) = false)
    (he : (resp k).listaOrcamentos.isEmpty = true) :
    (listar_orcamentos env resp q tentativas).df = [] ∧
    (listar_orcamentos env resp q tentativas).errors = [] ∧
    postCount (listar_orcamentos env resp q tentativas) = k := by
  rw [listar_eq_loop env resp q tentativas keys hk]
  have hbb : ∀ i, 1 ≤ i → i < 1 + (k - 1) → busyResp (resp i) := by
    intro i hi1 hi2
    exact hbusy i (List.mem_range'_1.mpr ⟨hi1, hi2⟩)
  have hrun := loopAux_skip_busy resp q (mkPayload keys q.ano q.mes)
    (k - 1) 1 ((tentativas - k) + 1) hbb
  have hsum : (k - 1) + ((tentativas - k) + 1) = tentativas := by omega
  have hone : 1 + (k - 1) = k := by omega
  rw [hsum, hone] at hrun
  have hterm := loopAux_ok_empty resp q (mkPayload keys q.ano q.mes)
    k (tentativas - k) h200 hb he
  rw [hterm] at hrun
  rw [hrun]
  refine ⟨by simp [busyWrap], by simp [busyWrap], ?_⟩
  simp [busyWrap, postCount, List.countP_append, List.countP_cons, isPostEv]
  have := countP_post_flat (mkPayload keys q.ano q.mes) (k - 1) 1
  simp [postCount] at this ⊢
  omega

/-- C4 witness: busy on attempt 1, empty success on attempt 2. -/
theorem claim_C4_witness :
    (listar_orcamentos envAB netBusyThenEmpty qAB 3).df = [] ∧
    (listar_orcamentos envAB netBusyThenEmpty qAB 3).errors = [] ∧
    postCount (listar_orcamentos envAB netBusyThenEmpty qAB 3) = 2 :=
  claim_C4 envAB netBusyThenEmpty qAB 3 2 keysAB (by decide) (by decide)
    (by decide) (by decide) (by decide) (by decide) (by decide)

/-- C5: every row of a non-empty result carries the four tag columns,
matching the query exactly: the year, the zero-padded two-digit month,
the locality, and the service. -/
theorem claim_C5 (env : Env) (resp : Nat → HttpResponse) (q : Query)
    (tentativas : Nat) (r : Row)
    (hr : r ∈ (listar_orcamentos env resp q tentativas).df) :
    r.ano = q.ano ∧ r.mes = pyZfill (toString q.mes) 2 ∧
    r.localidade = q.localidade ∧ r.servico = q.servico := by
  unfold listar_orcamentos at hr
  cases hcase : get_app_keys env q.localidade q.servico with
  | none =>
    rw [hcase] at hr
    simp at hr
  | some keys =>
    rw [hcase] at hr
    exact loopAux_df_tags resp q (mkPayload keys q.ano q.mes) tentativas 1 r hr

/-- C5 witness: the row returned by a concrete successful fetch. -/
theorem claim_C5_witness :
    (tagRow qAB entry0).ano = qAB.ano ∧
    (tagRow qAB entry0).mes = pyZfill (toString qAB.mes) 2 ∧
    (tagRow qAB entry0).localidade = qAB.localidade ∧
    (tagRow qAB entry0).servico = qAB.servico :=
  claim_C5 envAB netOk qAB 3 (tagRow qAB entry0) (List.Mem.head _)

/-- C6: once credentials resolve, the whole trace is, for each issued
POST `n`, the sleep of `4 * n` seconds followed by that POST; in
particular the very first event is a 4-second sleep when at least one
attempt is allowed. -/
theorem claim_C6 (env : Env) (resp : Nat → HttpResponse) (q : Query)
    (tentativas : Nat) (keys : AppKeysConfig)
    (hk : get_app_keys env q.localidade q.servico = some keys) :
    (listar_orcamentos env resp q tentativas).trace =
      (List.range' 1 (postCount (listar_orcamentos env resp q tentativas))).flatMap
        (fun n => [Ev.sleep (4 * n), Ev.post (mkPayload keys q.ano q.mes)]) ∧
    (1 ≤ tentativas →
      (listar_orcamentos env resp q tentativas).trace.head? = some (Ev.sleep 4)) := by
  rw [listar_eq_loop env resp q tentativas keys hk]
  refine ⟨loopAux_trace_shape resp q (mkPayload keys q.ano q.mes) tentativas 1, ?_⟩
  intro ht
  obtain ⟨rem, rfl⟩ : ∃ rem, tentativas = rem + 1 := ⟨tentativas - 1, by omega⟩
  have hhead := loopAux_head_sleep resp q (mkPayload keys q.ano q.mes) 1 rem
  simpa using hhead

/-- C6 witness: the concrete one-shot successful fetch. -/
theorem claim_C6_witness :
    (listar_orcamentos envAB netOk qAB 3).trace =
      (List.range' 1 (postCount (listar_orcamentos envAB netOk qAB 3))).flatMap
        (fun n => [Ev.sleep (4 * n), Ev.post (mkPayload keysAB qAB.ano qAB.mes)]) ∧
    (listar_orcamentos envAB netOk qAB 3).trace.head? = some (Ev.sleep 4) :=
  ⟨(claim_C6 envAB netOk qAB 3 keysAB (by decide)).1,
    (claim_C6 envAB netOk qAB 3 keysAB (by decide)).2 (by decide)⟩

/-- C7: after the UI-block conversions every numeric field is an exact
multiple of a hundredth (rounded to 2 decimal places), and negative
values survive the conversion, so non-negativity is not enforced. -/
theorem claim_C7 :
    (∀ rows pr, pr ∈ processDF rows →
      isCent pr.Previsto = true ∧ isCent pr.Realizado = true) ∧
    (∃ rows pr, pr ∈ processDF rows ∧ pr.Previsto < 0) := by
  constructor
  · intro rows pr hpr
    simp only [processDF, List.mem_map] at hpr
    obtain ⟨r, _, rfl⟩ := hpr
    exact ⟨isCent_round2 r.entry.nValorPrevisto, isCent_round2 r.entry.nValorRealizado⟩
  · refine ⟨[rowNeg], processRow rowNeg, List.Mem.head _, ?_⟩
    show round2 (-1 : ℚ) < 0
    rw [round2_neg_one]
    norm_num

/-- C7 witness: the processed negative row evaluates the claim. -/
theorem claim_C7_witness :
    isCent (processRow rowNeg).Previsto = true ∧
    isCent (processRow rowNeg).Realizado = true :=
  claim_C7.1 [rowNeg] (processRow rowNeg) (List.Mem.head _)

/-- C8: when one or both environment variables of a pair are unset or
empty, each resolver returns the absence value; the embedding is total,
so every failure is reported through that value rather than an
exception. -/
theorem claim_C8 (env : Env) (validEmail : String → Bool)
    (localidade servico : String) :
    (truthy (env (appKeyVar localidade servico)) = false ∨
        truthy (env (appSecretVar localidade servico)) = false →
      get_app_keys env localidade servico = none) ∧
    (truthy (env (emailVar localidade servico)) = false ∨
        truthy (env (senhaVar localidade servico)) = false →
      get_email_config validEmail env localidade servico = none) := by
  constructor
  · intro h
    unfold get_app_keys
    rcases h with h | h <;> simp [h]
  · intro h
    unfold get_email_config
    rcases h with h | h <;> simp [h]

/-- C8 witness: the empty environment. -/
theorem claim_C8_witness :
    get_app_keys envEmpty "a" "b" = none ∧
    get_email_config (fun _ => true) envEmpty "a" "b" = none :=
  ⟨(claim_C8 envEmpty (fun _ => true) "a" "b").1 (Or.inl (by decide)),
    (claim_C8 envEmpty (fun _ => true) "a" "b").2 (Or.inl (by decide))⟩

/-- C9: with both variables present and nonempty, `get_app_keys` returns
exactly those values, and the result only depends on the uppercased form
of the locality and service inputs. -/
theorem claim_C9 (env : Env) (localidade servico k s : String)
    (hk : env (appKeyVar localidade servico) = some k)
    (hs : env (appSecretVar localidade servico) = some s)
    (hk0 : k ≠ "") (hs0 : s ≠ "") :
    get_app_keys env localidade servico = some ⟨k, s⟩ ∧
    ∀ l2 s2, pyUpper l2 = pyUpper localidade → pyUpper s2 = pyUpper servico →
      get_app_keys env l2 s2 = get_app_keys env localidade servico := by
  constructor
  · exact get_app_keys_eq_some env localidade servico k s hk hs hk0 hs0
  · intro l2 s2 hl2 hs2
    unfold get_app_keys appKeyVar appSecretVar
    rw [hl2, hs2]

/-- C9 witness: the concrete environment, with a case-flipped lookup. -/
theorem claim_C9_witness :
    get_app_keys envAB "a" "b" = some ⟨"chave", "segredo"⟩ ∧
    get_app_keys envAB "A" "B" = get_app_keys envAB "a" "b" :=
  ⟨(claim_C9 envAB "a" "b" "chave" "segredo" (by decide) (by decide)
      (by decide) (by decide)).1,
    (claim_C9 envAB "a" "b" "chave" "segredo" (by decide) (by decide)
      (by decide) (by decide)).2 "A" "B" (by decide) (by decide)⟩

/-- C10: the `ValidationError` branch of `get_app_keys` is unreachable:
nonempty inputs always validate, so a `none` result can only come from the
missing-or-empty variable check. -/
theorem claim_C10 :
    (∀ k s : String, k ≠ "" → s ≠ "" →
      (AppKeysConfig.validate k s).isSome = true) ∧
    (∀ (env : Env) (localidade servico : String),
      get_app_keys env localidade servico = none →
        truthy (env (appKeyVar localidade servico)) = false ∨
        truthy (env (appSecretVar localidade servico)) = false) := by
  constructor
  · intro k s hk hs
    unfold AppKeysConfig.validate
    simp [one_le_length_of_ne_empty k hk, one_le_length_of_ne_empty s hs]
  · intro env localidade servico hnone
    cases hkv : truthy (env (appKeyVar localidade servico)) with
    | false => exact Or.inl rfl
    | true =>
      cases hsv : truthy (env (appSecretVar localidade servico)) with
      | false => exact Or.inr rfl
      | true =>
        exfalso
        obtain ⟨k, hk, hk0⟩ := (truthy_iff _).mp hkv
        obtain ⟨s, hs, hs0⟩ := (truthy_iff _).mp hsv
        rw [get_app_keys_eq_some env localidade servico k s hk hs hk0 hs0] at hnone
        exact Option.some_ne_none _ hnone

/-- C10 witness: a concrete validation success and a concrete `none`
caused by missing variables. -/
theorem claim_C10_witness :
    (AppKeysConfig.validate "chave" "segredo").isSome = true ∧
    (truthy (envEmpty (appKeyVar "a" "b")) = false ∨
      truthy (envEmpty (appSecretVar "a" "b")) = false) :=
  ⟨claim_C10.1 "chave" "segredo" (by decide) (by decide),
    claim_C10.2 envEmpty "a" "b" (by decide)⟩

end PrevReal
